import Mathlib

/-!
Shallow embedding of the `continuous-claude` dashboard backend
(`src/dashboard/backend`), covering:

* `routes/websocket.py` — the `ConnectionManager` class (`connect`,
  `disconnect`, the subscribe handler of `websocket_endpoint`,
  `broadcast`, `broadcast_to_session`) and the inbound control-message
  loop of the global `/ws` endpoint;
* `routes/tasks.py` — `get_task_queue` bucketing and `update_task`
  status/timestamp handling;
* `main.py` — the task bucketing and `success_rate` metric of
  `get_dashboard_state`.

WebSocket handles are modelled as `Nat` ids; Python dicts keyed by
session-id strings are modelled as association lists; `datetime.utcnow()`
values are modelled as an abstract `Nat` clock value passed in.
-/

namespace Dashboard

/-- Python dict lookup `m[s]` / `s in m` on `session_connections`:
returns the value of the first matching key, `none` when absent. -/
def lookupSession (m : List (String × List Nat)) (s : String) : Option (List Nat) :=
  match m with
  | [] => none
  | (k, v) :: rest => if k = s then some v else lookupSession rest s

/-- Python dict write `m[s] = v`: replaces the first binding of `s`,
or appends a new binding when `s` is absent. -/
def setSession (m : List (String × List Nat)) (s : String) (v : List Nat) :
    List (String × List Nat) :=
  match m with
  | [] => [(s, v)]
  | (k, w) :: rest => if k = s then (s, v) :: rest else (k, w) :: setSession rest s v

/-- Python dict delete `del m[s]`: drops every binding of `s`. -/
def removeSession (m : List (String × List Nat)) (s : String) :
    List (String × List Nat) :=
  m.filter (fun p => p.1 ≠ s)

/-- State of `ConnectionManager` (websocket.py lines 14-19):
`active_connections` is the global connection list,
`session_connections` maps a session id to the connections watching it. -/
structure ConnectionManager where
  active_connections : List Nat
  session_connections : List (String × List Nat)
deriving DecidableEq, Repr

/-- The freshly constructed manager (`__init__`). -/
def emptyManager : ConnectionManager := ⟨[], []⟩

/-- `ConnectionManager.connect` (websocket.py lines 21-29): append the
connection to the global list and, when a session id is given, to that
session's list (creating the entry when absent). -/
def connect (st : ConnectionManager) (ws : Nat) (sid : Option String) :
    ConnectionManager :=
  let st1 := { st with active_connections := st.active_connections ++ [ws] }
  match sid with
  | none => st1
  | some s =>
      let cur := (lookupSession st1.session_connections s).getD []
      { st1 with session_connections := setSession st1.session_connections s (cur ++ [ws]) }

/-- `ConnectionManager.disconnect` (websocket.py lines 31-40): remove the
connection from the global list (first occurrence, guarded by membership,
which `List.erase` matches exactly); when a session id is given and has an
entry, remove the connection from that session's list and delete the key
when the list becomes empty.  A session the connection subscribed to but
that is not the `sid` argument is left untouched. -/
def disconnect (st : ConnectionManager) (ws : Nat) (sid : Option String) :
    ConnectionManager :=
  let st1 := { st with active_connections := st.active_connections.erase ws }
  match sid with
  | none => st1
  | some s =>
      match lookupSession st1.session_connections s with
      | none => st1
      | some lst =>
          let lst2 := lst.erase ws
          if lst2.isEmpty then
            { st1 with session_connections := removeSession st1.session_connections s }
          else
            { st1 with session_connections := setSession st1.session_connections s lst2 }

/-- The subscribe handler of `websocket_endpoint` (websocket.py lines
101-105): create the session entry when absent and append the connection
to it, unconditionally — no membership check is performed. -/
def subscribe (st : ConnectionManager) (ws : Nat) (s : String) : ConnectionManager :=
  let cur := (lookupSession st.session_connections s).getD []
  { st with session_connections := setSession st.session_connections s (cur ++ [ws]) }

/-- The target list a publish iterates over: `broadcast` walks
`active_connections`; `broadcast_to_session` walks the session's entry
and returns early when the key is absent (empty target list). -/
def targetsFor (st : ConnectionManager) (sid : Option String) : List Nat :=
  match sid with
  | none => st.active_connections
  | some s => (lookupSession st.session_connections s).getD []

/-- Connection `c` has session `s` in its subscription set: it appears in
the session's entry of `session_connections`. -/
def subscribedTo (st : ConnectionManager) (c : Nat) (s : String) : Prop :=
  c ∈ (lookupSession st.session_connections s).getD []

instance (st : ConnectionManager) (c : Nat) (s : String) :
    Decidable (subscribedTo st c s) := by
  unfold subscribedTo; infer_instance

/-- The delivery loop shared by `broadcast` and `broadcast_to_session`
(websocket.py lines 50-55 and 73-78): for each target connection the body
runs — the `send_text` is attempted inside a `try`, and a raised exception
is caught and only appends the connection to `disconnected`, so the loop
always continues to the next target.  Returns
(attempted, delivered, disconnected), each in iteration order.
`fails c = true` models `send_text` raising for connection `c`. -/
def sendLoop (fails : Nat → Bool) : List Nat → List Nat × List Nat × List Nat
  | [] => ([], [], [])
  | c :: rest =>
      let r := sendLoop fails rest
      if fails c then (c :: r.1, r.2.1, c :: r.2.2)
      else (c :: r.1, c :: r.2.1, r.2.2)

/-- Outcome of one publish call. -/
structure BroadcastResult where
  attempted : List Nat
  delivered : List Nat
  failed : List Nat
  final : ConnectionManager
deriving DecidableEq, Repr

/-- `ConnectionManager.broadcast` (websocket.py lines 42-59): iterate the
global list attempting delivery, then, after the pass, call
`disconnect(conn)` (no session argument) for each failed connection.
The serialized envelope is the same for all targets and does not affect
targeting, so it is not modelled. -/
def broadcast (st : ConnectionManager) (fails : Nat → Bool) : BroadcastResult :=
  let targets := st.active_connections
  let r := sendLoop fails targets
  { attempted := r.1, delivered := r.2.1, failed := r.2.2,
    final := r.2.2.foldl (fun s c => disconnect s c none) st }

/-- `ConnectionManager.broadcast_to_session` (websocket.py lines 61-82):
return early when the session has no entry; otherwise iterate the
session's list attempting delivery, then call `disconnect(conn,
session_id)` for each failed connection after the pass. -/
def broadcast_to_session (st : ConnectionManager) (sid : String)
    (fails : Nat → Bool) : BroadcastResult :=
  match lookupSession st.session_connections sid with
  | none => { attempted := [], delivered := [], failed := [], final := st }
  | some targets =>
      let r := sendLoop fails targets
      { attempted := r.1, delivered := r.2.1, failed := r.2.2,
        final := r.2.2.foldl (fun s c => disconnect s c (some sid)) st }

/-- Every entry of `setSession m s v` is either the new binding or an
entry of `m`. -/
theorem mem_setSession {m : List (String × List Nat)} {s : String}
    {v : List Nat} {p : String × List Nat} (h : p ∈ setSession m s v) :
    p = (s, v) ∨ p ∈ m := by
  induction m with
  | nil =>
      simp [setSession] at h
      exact Or.inl h
  | cons q rest ih =>
      by_cases hq : q.1 = s
      · simp [setSession, hq] at h
        rcases h with h | h
        · exact Or.inl h
        · exact Or.inr (List.mem_cons_of_mem _ h)
      · simp [setSession, hq] at h
        rcases h with h | h
        · exact Or.inr (by simp [h])
        · rcases ih h with h2 | h2
          · exact Or.inl h2
          · exact Or.inr (List.mem_cons_of_mem _ h2)

/-- Looking up the key just written returns the written value. -/
theorem lookup_setSession_self (m : List (String × List Nat)) (s : String)
    (v : List Nat) : lookupSession (setSession m s v) s = some v := by
  induction m with
  | nil => simp [setSession, lookupSession]
  | cons q rest ih =>
      by_cases hq : q.1 = s
      · simp [setSession, hq, lookupSession]
      · simp [setSession, hq, lookupSession, ih]

/-- Looking up a deleted key returns `none`. -/
theorem lookup_removeSession_self (m : List (String × List Nat)) (s : String) :
    lookupSession (removeSession m s) s = none := by
  induction m with
  | nil => rfl
  | cons q rest ih =>
      by_cases hq : q.1 = s
      · simpa [removeSession, hq, lookupSession] using ih
      · simpa [removeSession, hq, lookupSession] using ih

/-- `sendLoop` attempts every target, delivers exactly the non-failing
targets in order, and collects exactly the failing ones in order. -/
theorem sendLoop_eq (fails : Nat → Bool) (l : List Nat) :
    sendLoop fails l = (l, l.filter (fun c => !fails c), l.filter fails) := by
  induction l with
  | nil => rfl
  | cons c rest ih =>
      cases h : fails c <;> simp [sendLoop, ih, List.filter, h]

/-- Values produced by `json.loads`: a JSON object, string, number
(numeric precision is irrelevant to the handler, which only compares the
`action` value with string constants), array, boolean or null. -/
inductive Json where
  | obj : List (String × Json) → Json
  | str : String → Json
  | num : Int → Json
  | arr : List Json → Json
  | boolean : Bool → Json
  | null : Json

/-- `message.get(key)` on a parsed JSON object: the value of the first
matching field, `none` when absent (`"key" in message` is `isSome`). -/
def lookupField (fields : List (String × Json)) (key : String) : Option Json :=
  match fields with
  | [] => none
  | (k, v) :: rest => if k = key then some v else lookupField rest key

/-- Python `value == "lit"` for a `message.get` result: true exactly when
the value is present and is the string `lit`. -/
def isStrEq (v : Option Json) (lit : String) : Bool :=
  match v with
  | some (Json.str s) => s == lit
  | _ => false

/-- What one iteration of the `websocket_endpoint` receive loop
(websocket.py lines 96-116) does with an inbound message:
* `ignored` — no reply is sent, no state changes, the loop continues and
  the connection stays open;
* `subscribed s` — the connection is appended to session `s`'s entry (the
  `subscribe` operation above) and a `subscribed` reply is sent;
* `subscribedNonString` — a subscribe whose `session_id` value is a
  non-string hashable JSON value (number, boolean, null): Python uses it
  as a dict key and still sends the `subscribed` reply;
* `pong` — a `pong` reply is sent;
* `crash` — an exception other than `json.JSONDecodeError` is raised and
  is not caught, so it escapes the receive loop and the connection is
  torn down without passing through `manager.disconnect`. -/
inductive Outcome where
  | ignored
  | subscribed (s : String)
  | subscribedNonString
  | pong
  | crash
deriving DecidableEq, Repr

/-- One iteration of the `websocket_endpoint` receive loop on inbound
text (websocket.py lines 96-116).  `none` models text that raises
`json.JSONDecodeError` — the only exception the inner `try` catches.
A message parsing to a non-object raises `AttributeError` at
`message.get`, which is uncaught; a subscribe whose `session_id` is an
array or object raises `TypeError` (unhashable dict key), also uncaught. -/
def handleMessage (msg : Option Json) : Outcome :=
  match msg with
  | none => Outcome.ignored
  | some (Json.obj fields) =>
      if isStrEq (lookupField fields "action") "subscribe" &&
         (lookupField fields "session_id").isSome then
        match lookupField fields "session_id" with
        | some (Json.str s) => Outcome.subscribed s
        | some (Json.arr _) => Outcome.crash
        | some (Json.obj _) => Outcome.crash
        | some _ => Outcome.subscribedNonString
        | none => Outcome.ignored
      else if isStrEq (lookupField fields "action") "ping" then Outcome.pong
      else Outcome.ignored
  | some _ => Outcome.crash

/-- A task row as read by the dashboard queries (db/models.py `Task`),
with the fields the verified code paths touch.  `status` is stored as an
unconstrained string; timestamps are abstract clock values; the JSON
`result` payload is abstracted to an opaque string. -/
structure Task where
  id : String
  status : String
  priority : Int
  created_at : Nat
  started_at : Option Nat
  completed_at : Option Nat
  agent_id : Option String
  result : Option String
deriving DecidableEq, Repr

/-- The `TaskQueue` schema (models/schemas.py lines 98-102): one ordered
bucket per status. -/
structure TaskQueue where
  pending : List Task
  in_progress : List Task
  completed : List Task
  failed : List Task
deriving DecidableEq, Repr

/-- The empty `TaskQueue()`. -/
def emptyQueue : TaskQueue := ⟨[], [], [], []⟩

/-- One step of the bucketing loop shared by `get_task_queue`
(tasks.py lines 53-63) and `get_dashboard_state` (main.py lines 194-204):
append the task to the bucket matching its status; a task whose status is
none of the four is appended nowhere. -/
def bucketStep (q : TaskQueue) (t : Task) : TaskQueue :=
  if t.status = "pending" then { q with pending := q.pending ++ [t] }
  else if t.status = "in_progress" then { q with in_progress := q.in_progress ++ [t] }
  else if t.status = "completed" then { q with completed := q.completed ++ [t] }
  else if t.status = "failed" then { q with failed := q.failed ++ [t] }
  else q

/-- The bucketing loop: iterate the fetched task sequence once, starting
from an empty queue. -/
def buildTaskQueue (tasks : List Task) : TaskQueue :=
  tasks.foldl bucketStep emptyQueue

/-- The status domain the data model declares for tasks
(db/models.py line 56). -/
def validStatuses : List String := ["pending", "in_progress", "completed", "failed"]

/-- `len([t for t in all_tasks if t.status == "completed"])`
(main.py line 241). -/
def completedCount (tasks : List Task) : Nat :=
  (tasks.filter (fun t => t.status = "completed")).length

/-- `len([t for t in all_tasks if t.status == "failed"])`
(main.py line 242). -/
def failedCount (tasks : List Task) : Nat :=
  (tasks.filter (fun t => t.status = "failed")).length

/-- The `success_rate` metric (main.py lines 241-244): the completed
count over completed-plus-failed, or `0` when that total is `0`.
Python's float division is modelled as exact rational division. -/
def success_rate (tasks : List Task) : ℚ :=
  let total : Nat := completedCount tasks + failedCount tasks
  if total > 0 then (completedCount tasks : ℚ) / (total : ℚ) else 0

/-- A `TaskUpdate` request body (models/schemas.py lines 92-95) after
`model_dump(exclude_unset=True)`: the outer `Option` is "field was
provided"; there is no field for either timestamp, so a PATCH can never
write them directly. -/
structure TaskUpdate where
  status : Option String
  agent_id : Option (Option String)
  result : Option (Option String)
deriving DecidableEq, Repr

/-- `update_task` (tasks.py lines 127-141): when a status is provided,
first set `started_at` on a first transition into `in_progress`, or else
set `completed_at` on a first transition into `completed` or `failed`;
then apply every provided field with `setattr`.  `now` models
`datetime.utcnow()`. -/
def update_task (t : Task) (u : TaskUpdate) (now : Nat) : Task :=
  let t1 :=
    match u.status with
    | none => t
    | some s =>
        if s = "in_progress" ∧ t.started_at = none then
          { t with started_at := some now }
        else if (s = "completed" ∨ s = "failed") ∧ t.completed_at = none then
          { t with completed_at := some now }
        else t
  let t2 := match u.status with
    | none => t1
    | some s => { t1 with status := s }
  let t3 := match u.agent_id with
    | none => t2
    | some a => { t2 with agent_id := a }
  match u.result with
  | none => t3
  | some r => { t3 with result := r }

/-- The bucketing loop, started from any queue, appends to each bucket
exactly the sub-sequence of the input with the matching status, in input
order. -/
theorem foldl_bucketStep (tasks : List Task) (q : TaskQueue) :
    tasks.foldl bucketStep q =
      { pending := q.pending ++ tasks.filter (fun t => t.status = "pending"),
        in_progress := q.in_progress ++ tasks.filter (fun t => t.status = "in_progress"),
        completed := q.completed ++ tasks.filter (fun t => t.status = "completed"),
        failed := q.failed ++ tasks.filter (fun t => t.status = "failed") } := by
  induction tasks generalizing q with
  | nil => simp
  | cons t rest ih =>
      rw [List.foldl_cons, ih]
      by_cases h1 : t.status = "pending"
      · simp [bucketStep, h1]
      · by_cases h2 : t.status = "in_progress"
        · simp [bucketStep, h1, h2]
        · by_cases h3 : t.status = "completed"
          · simp [bucketStep, h1, h2, h3]
          · by_cases h4 : t.status = "failed"
            · simp [bucketStep, h1, h2, h3, h4]
            · simp [bucketStep, h1, h2, h3, h4]

/-- Each bucket of `buildTaskQueue` is the status-filtered sub-sequence
of the input. -/
theorem buildTaskQueue_eq (tasks : List Task) :
    buildTaskQueue tasks =
      { pending := tasks.filter (fun t => t.status = "pending"),
        in_progress := tasks.filter (fun t => t.status = "in_progress"),
        completed := tasks.filter (fun t => t.status = "completed"),
        failed := tasks.filter (fun t => t.status = "failed") } := by
  simpa [emptyQueue] using foldl_bucketStep tasks emptyQueue

/-- Splitting a list into the four status filters is a permutation of the
list, provided every element's status is one of the four. -/
theorem filter_four_perm (tasks : List Task)
    (h : ∀ t ∈ tasks, t.status ∈ validStatuses) :
    (tasks.filter (fun t => t.status = "pending") ++
      tasks.filter (fun t => t.status = "in_progress") ++
      tasks.filter (fun t => t.status = "completed") ++
      tasks.filter (fun t => t.status = "failed")).Perm tasks := by
  rw [List.perm_iff_count]
  intro a
  rw [List.count_append, List.count_append, List.count_append]
  have cz : ∀ s : String, a.status ≠ s →
      List.count a (tasks.filter (fun t => t.status = s)) = 0 := by
    intro s hs
    refine List.count_eq_zero.mpr fun hmem => ?_
    have hpa := List.of_mem_filter hmem
    simp only [decide_eq_true_eq] at hpa
    exact hs hpa
  have ce : ∀ s : String, a.status = s →
      List.count a (tasks.filter (fun t => t.status = s)) = List.count a tasks := by
    intro s hs
    exact List.count_filter (by simp [hs])
  by_cases ha : a ∈ tasks
  · have hv := h a ha
    simp only [validStatuses, List.mem_cons, List.not_mem_nil, or_false] at hv
    rcases hv with h1 | h1 | h1 | h1
    · rw [ce "pending" h1, cz "in_progress" (by simp [h1]),
        cz "completed" (by simp [h1]), cz "failed" (by simp [h1])]
      omega
    · rw [ce "in_progress" h1, cz "pending" (by simp [h1]),
        cz "completed" (by simp [h1]), cz "failed" (by simp [h1])]
      omega
    · rw [ce "completed" h1, cz "pending" (by simp [h1]),
        cz "in_progress" (by simp [h1]), cz "failed" (by simp [h1])]
      omega
    · rw [ce "failed" h1, cz "pending" (by simp [h1]),
        cz "in_progress" (by simp [h1]), cz "completed" (by simp [h1])]
      omega
  · have c0 : List.count a tasks = 0 := List.count_eq_zero.mpr ha
    have call : ∀ s : String,
        List.count a (tasks.filter (fun t => t.status = s)) = 0 := fun s =>
      List.count_eq_zero.mpr fun hm => ha (List.mem_of_mem_filter hm)
    rw [call "pending", call "in_progress", call "completed", call "failed", c0]

/-- The invariant that no session key maps to an empty connection list. -/
def sessionIndexNonempty (st : ConnectionManager) : Prop :=
  ∀ p ∈ st.session_connections, p.2 ≠ []

instance (st : ConnectionManager) : Decidable (sessionIndexNonempty st) := by
  unfold sessionIndexNonempty; infer_instance

/-- A manager with one connection, id 0, attached through the global
endpoint and then subscribed to session `s1` by a control message. -/
def exC1 : ConnectionManager := subscribe (connect emptyManager 0 none) 0 "s1"

/-- A manager with two connections, ids 0 and 1, both attached through
the global endpoint. -/
def exSt4 : ConnectionManager := connect (connect emptyManager 0 none) 1 none

/-- `disconnect` always removes the first occurrence of the connection
from the global list, whatever the session argument. -/
theorem disconnect_active (st : ConnectionManager) (c : Nat) (sid : Option String) :
    (disconnect st c sid).active_connections = st.active_connections.erase c := by
  unfold disconnect
  cases sid with
  | none => rfl
  | some s =>
      dsimp only
      cases lookupSession st.session_connections s with
      | none => rfl
      | some lst =>
          dsimp only
          by_cases he : (lst.erase c).isEmpty = true <;> simp [he]

/-- A list holding `c` at most once no longer holds it after `erase`. -/
theorem not_mem_erase_of_count_le_one {c : Nat} {l : List Nat}
    (h : List.count c l ≤ 1) : c ∉ l.erase c := by
  refine List.count_eq_zero.mp ?_
  have := List.count_erase_self c l
  omega

/-- C1 counterexample: connection 0 attaches through the global endpoint,
subscribes to session `s1`, and is then disconnected the way the global
endpoint does it — `disconnect(websocket)` with no session argument
(websocket.py line 119).  The target set of a subsequent `s1`-scoped
event still includes connection 0, refuting the claim that after
`disconnect` no event ever targets the connection. -/
theorem disconnect_leaves_session_target :
    0 ∈ targetsFor (disconnect exC1 0 none) (some "s1") := by
  decide

/-- C1 amended: `disconnect` removes the connection from the session-less
target set, and from the target set of the session id it is called with,
provided the connection was registered at most once in each list; it does
not touch the entries of any other session the connection subscribed to. -/
theorem disconnect_removes_given_scope (st : ConnectionManager) (c : Nat) (s : String)
    (h1 : List.count c st.active_connections ≤ 1)
    (h2 : List.count c ((lookupSession st.session_connections s).getD []) ≤ 1) :
    c ∉ targetsFor (disconnect st c (some s)) none ∧
    c ∉ targetsFor (disconnect st c (some s)) (some s) ∧
    c ∉ targetsFor (disconnect st c none) none := by
  refine ⟨?_, ?_, ?_⟩
  · show c ∉ (disconnect st c (some s)).active_connections
    rw [disconnect_active]
    exact not_mem_erase_of_count_le_one h1
  · show c ∉ (lookupSession (disconnect st c (some s)).session_connections s).getD []
    unfold disconnect
    dsimp only
    cases hl : lookupSession st.session_connections s with
    | none => simp [targetsFor, hl]
    | some lst =>
        rw [hl] at h2
        dsimp only [Option.getD] at h2
        by_cases he : (lst.erase c).isEmpty = true
        · simp only [he, if_true]
          simp [lookup_removeSession_self]
        · simp only [he, Bool.false_eq_true, if_false]
          simp only [lookup_setSession_self, Option.getD]
          exact not_mem_erase_of_count_le_one h2
  · show c ∉ (disconnect st c none).active_connections
    rw [disconnect_active]
    exact not_mem_erase_of_count_le_one h1

/-- C1 amended, applied: the state of the counterexample, disconnected
with the session argument this time, no longer targets connection 0 for
session-less events or for `s1`-scoped events. -/
theorem disconnect_removes_given_scope_witness :
    List.count 0 exC1.active_connections ≤ 1 ∧
    0 ∉ targetsFor (disconnect exC1 0 (some "s1")) none ∧
    0 ∉ targetsFor (disconnect exC1 0 (some "s1")) (some "s1") :=
  ⟨by decide,
   (disconnect_removes_given_scope exC1 0 "s1" (by decide) (by decide)).1,
   (disconnect_removes_given_scope exC1 0 "s1" (by decide) (by decide)).2.1⟩

/-- C2: an event scoped to session `s` is delivered (all transports
healthy) to exactly the connections whose subscription set contains `s`:
a connection receives it if and only if it appears in session `s`'s
entry, so connections subscribed to other sessions only, or to none,
receive nothing. -/
theorem broadcast_to_session_exact_targets (st : ConnectionManager) (s : String) (c : Nat) :
    c ∈ (broadcast_to_session st s (fun _ => false)).delivered ↔ subscribedTo st c s := by
  unfold broadcast_to_session subscribedTo
  cases hl : lookupSession st.session_connections s with
  | none => simp
  | some targets => simp [sendLoop_eq]

/-- C4: in one publish pass, every target connection is attempted —
a delivery failure at one connection never truncates the pass — and every
non-failing target is delivered; the failed connections are pruned from
the state only after the pass, so the attempted list is exactly the
pre-pass target list. -/
theorem publish_failure_isolated (st : ConnectionManager) (fails : Nat → Bool) (sid : String) :
    (broadcast st fails).attempted = st.active_connections ∧
    (∀ c ∈ st.active_connections, fails c = false → c ∈ (broadcast st fails).delivered) ∧
    (broadcast_to_session st sid fails).attempted = targetsFor st (some sid) ∧
    (∀ c ∈ targetsFor st (some sid), fails c = false →
      c ∈ (broadcast_to_session st sid fails).delivered) := by
  refine ⟨?_, ?_, ?_, ?_⟩
  · simp [broadcast, sendLoop_eq]
  · intro c hc hf
    simp only [broadcast, sendLoop_eq]
    exact List.mem_filter.mpr ⟨hc, by simp [hf]⟩
  · unfold broadcast_to_session targetsFor
    cases hl : lookupSession st.session_connections sid with
    | none => simp [hl]
    | some targets => simp [hl, sendLoop_eq]
  · intro c hc hf
    simp only [targetsFor] at hc
    unfold broadcast_to_session
    cases hl : lookupSession st.session_connections sid with
    | none => rw [hl] at hc; simp at hc
    | some targets =>
        rw [hl] at hc
        simp only [Option.getD] at hc
        simp [sendLoop_eq, List.mem_filter, hf, hc]

/-- C4 applied: with connections 0 and 1 registered and the send to
connection 0 failing, connection 1 is still delivered to, and the pass
attempted both connections. -/
theorem publish_failure_isolated_witness :
    1 ∈ (broadcast exSt4 (fun c => c == 0)).delivered ∧
    (broadcast exSt4 (fun c => c == 0)).attempted = [0, 1] :=
  ⟨(publish_failure_isolated exSt4 (fun c => c == 0) "s1").2.1 1 (by decide) (by decide),
   by rw [(publish_failure_isolated exSt4 (fun c => c == 0) "s1").1]; rfl⟩

/-- C5 counterexample: subscribing connection 0 to session `s1` twice
does not leave the registry in the single-subscribe state — the
connection is appended twice — and an `s1`-scoped event published
afterwards is delivered to connection 0 twice, not once.  This refutes
the claimed idempotence of the subscribe operation. -/
theorem subscribe_not_idempotent :
    subscribe (subscribe (connect emptyManager 0 none) 0 "s1") 0 "s1" ≠
      subscribe (connect emptyManager 0 none) 0 "s1" ∧
    List.count 0 (broadcast_to_session
      (subscribe (subscribe (connect emptyManager 0 none) 0 "s1") 0 "s1") "s1"
      (fun _ => false)).delivered = 2 := by
  refine ⟨by decide, by decide⟩

/-- C5 amended: the subscribe handler appends the connection to the
session's list unconditionally, so each subscribe adds one more
occurrence, and a session-scoped event published afterwards (all
transports healthy) is delivered to the connection once per occurrence —
twice after a double subscribe, not once. -/
theorem subscribe_appends_occurrence (st : ConnectionManager) (c : Nat) (s : String) :
    List.count c ((lookupSession (subscribe st c s).session_connections s).getD []) =
      List.count c ((lookupSession st.session_connections s).getD []) + 1 ∧
    List.count c (broadcast_to_session (subscribe st c s) s (fun _ => false)).delivered =
      List.count c ((lookupSession st.session_connections s).getD []) + 1 := by
  constructor
  · simp [subscribe, lookup_setSession_self, List.count_append]
  · simp [subscribe, broadcast_to_session, lookup_setSession_self, sendLoop_eq,
      List.count_append]

/-- C10: the three registry mutations that touch the session index —
`connect` with a session id, the subscribe handler, and `disconnect` with
a session id — preserve the invariant that every session key present in
`session_connections` maps to a non-empty connection list, because
`disconnect` deletes the key when it empties the list and the other two
only append. -/
theorem session_index_nonempty_preserved (st : ConnectionManager) (ws : Nat) (s : String)
    (h : sessionIndexNonempty st) :
    sessionIndexNonempty (connect st ws (some s)) ∧
    sessionIndexNonempty (subscribe st ws s) ∧
    sessionIndexNonempty (disconnect st ws (some s)) := by
  refine ⟨?_, ?_, ?_⟩
  · intro p hp
    unfold connect at hp
    dsimp only at hp
    rcases mem_setSession hp with hq | hq
    · subst hq; simp
    · exact h p hq
  · intro p hp
    unfold subscribe at hp
    dsimp only at hp
    rcases mem_setSession hp with hq | hq
    · subst hq; simp
    · exact h p hq
  · intro p hp
    unfold disconnect at hp
    dsimp only at hp
    revert hp
    cases hl : lookupSession st.session_connections s with
    | none => exact fun hp => h p hp
    | some lst =>
        dsimp only
        by_cases he : (lst.erase ws).isEmpty = true
        · simp only [he, if_true]
          intro hp
          exact h p (List.mem_of_mem_filter hp)
        · simp only [he, Bool.false_eq_true, if_false]
          intro hp
          rcases mem_setSession hp with hq | hq
          · subst hq
            simpa [List.isEmpty_iff] using he
          · exact h p hq

/-- C10 applied: the invariant holds of the example state and is kept by
a connect, a subscribe, and a disconnect carrying a session id. -/
theorem session_index_nonempty_preserved_witness :
    sessionIndexNonempty (connect exC1 1 (some "s2")) ∧
    sessionIndexNonempty (subscribe exC1 1 "s2") ∧
    sessionIndexNonempty (disconnect exC1 1 (some "s2")) :=
  session_index_nonempty_preserved exC1 1 "s2" (by decide)

/-- The three example tasks of the spec scenario: a priority-9 pending
task, a priority-5 completed task with both timestamps, and a priority-5
failed task. -/
def exTask1 : Task := ⟨"t1", "pending", 9, 0, none, none, none, none⟩

/-- The completed example task. -/
def exTask2 : Task := ⟨"t2", "completed", 5, 1, some 10, some 40, none, none⟩

/-- The failed example task. -/
def exTask3 : Task := ⟨"t3", "failed", 5, 2, none, none, none, none⟩

/-- An already-started in-progress example task. -/
def exTask4 : Task := ⟨"t4", "in_progress", 1, 0, some 5, none, none, none⟩

/-- The example fetched task sequence, in priority-descending then
creation-ascending order. -/
def exTasks : List Task := [exTask1, exTask2, exTask3]

/-- C3: when every fetched task carries one of the four declared
statuses, the four buckets of the assembled queue partition the fetched
task multiset exactly — their concatenation is a permutation of the
input, and each fetched task lies in exactly one bucket. -/
theorem taskQueue_partition (tasks : List Task)
    (h : ∀ t ∈ tasks, t.status ∈ validStatuses) :
    ((buildTaskQueue tasks).pending ++ (buildTaskQueue tasks).in_progress ++
      (buildTaskQueue tasks).completed ++ (buildTaskQueue tasks).failed).Perm tasks ∧
    ∀ t ∈ tasks,
      List.countP (fun b => decide (t ∈ b))
        [(buildTaskQueue tasks).pending, (buildTaskQueue tasks).in_progress,
         (buildTaskQueue tasks).completed, (buildTaskQueue tasks).failed] = 1 := by
  constructor
  · rw [buildTaskQueue_eq]
    exact filter_four_perm tasks h
  · intro t ht
    have hv := h t ht
    simp only [validStatuses, List.mem_cons, List.not_mem_nil, or_false] at hv
    rw [buildTaskQueue_eq]
    rcases hv with h1 | h1 | h1 | h1 <;>
      simp [List.countP_cons, List.mem_filter, ht, h1]

/-- C3 applied: the example task list has valid statuses and its queue
buckets concatenate to a permutation of it. -/
theorem taskQueue_partition_witness :
    (∀ t ∈ exTasks, t.status ∈ validStatuses) ∧
    ((buildTaskQueue exTasks).pending ++ (buildTaskQueue exTasks).in_progress ++
      (buildTaskQueue exTasks).completed ++ (buildTaskQueue exTasks).failed).Perm exTasks :=
  ⟨by decide, (taskQueue_partition exTasks (by decide)).1⟩

/-- C8: each bucket of the assembled queue is the status-filtered
sub-sequence of the fetched order — it preserves the relative order of
the fetched sequence (a sublist of it) and performs no re-sorting of its
own. -/
theorem taskQueue_buckets_stable (tasks : List Task) :
    (buildTaskQueue tasks).pending = tasks.filter (fun t => t.status = "pending") ∧
    (buildTaskQueue tasks).in_progress = tasks.filter (fun t => t.status = "in_progress") ∧
    (buildTaskQueue tasks).completed = tasks.filter (fun t => t.status = "completed") ∧
    (buildTaskQueue tasks).failed = tasks.filter (fun t => t.status = "failed") ∧
    (buildTaskQueue tasks).pending.Sublist tasks ∧
    (buildTaskQueue tasks).in_progress.Sublist tasks ∧
    (buildTaskQueue tasks).completed.Sublist tasks ∧
    (buildTaskQueue tasks).failed.Sublist tasks := by
  refine ⟨?_, ?_, ?_, ?_, ?_, ?_, ?_, ?_⟩ <;>
    simp [buildTaskQueue_eq, List.filter_sublist]

/-- C7: the success-rate metric is `0` when the completed-plus-failed
count is zero, and otherwise exactly the completed count divided by the
completed-plus-failed count (division taken exactly, over the
rationals). -/
theorem success_rate_spec (tasks : List Task) :
    (completedCount tasks + failedCount tasks = 0 → success_rate tasks = 0) ∧
    (0 < completedCount tasks + failedCount tasks →
      success_rate tasks = (completedCount tasks : ℚ) /
        ((completedCount tasks : ℚ) + (failedCount tasks : ℚ))) := by
  constructor
  · intro h
    simp [success_rate, h]
  · intro h
    simp only [success_rate, h, if_pos]
    push_cast
    ring_nf

/-- C7 applied: the empty task set yields rate `0`; the example task set,
with one completed and one failed task, yields the exact quotient. -/
theorem success_rate_spec_witness :
    success_rate [] = 0 ∧
    success_rate exTasks = (completedCount exTasks : ℚ) /
      ((completedCount exTasks : ℚ) + (failedCount exTasks : ℚ)) :=
  ⟨(success_rate_spec []).1 rfl, (success_rate_spec exTasks).2 (by decide)⟩

/-- C6: a task PATCH carrying status `in_progress` leaves an already-set
`started_at` unchanged, and one carrying `completed` or `failed` leaves
an already-set `completed_at` unchanged — the timestamps are written only
on the first transition, and the update schema has no timestamp field to
overwrite them directly. -/
theorem update_task_preserves_timestamps (t : Task) (u : TaskUpdate) (now : Nat) :
    (u.status = some "in_progress" → t.started_at ≠ none →
      (update_task t u now).started_at = t.started_at) ∧
    ((u.status = some "completed" ∨ u.status = some "failed") → t.completed_at ≠ none →
      (update_task t u now).completed_at = t.completed_at) := by
  obtain ⟨us, ua, ur⟩ := u
  constructor
  · intro hs hne
    simp only at hs
    subst hs
    cases ua <;> cases ur <;> simp [update_task, hne]
  · intro hs hne
    simp only at hs
    rcases hs with hs | hs <;> subst hs <;> cases ua <;> cases ur <;>
      simp [update_task, hne]

/-- C6 applied: re-sending `completed` for the already-completed example
task keeps its completion timestamp; re-sending `in_progress` for the
already-started example task keeps its start timestamp. -/
theorem update_task_preserves_timestamps_witness :
    exTask2.completed_at ≠ none ∧ exTask4.started_at ≠ none ∧
    (update_task exTask2 ⟨some "completed", none, none⟩ 99).completed_at =
      exTask2.completed_at ∧
    (update_task exTask4 ⟨some "in_progress", none, none⟩ 99).started_at =
      exTask4.started_at :=
  ⟨by decide, by decide,
   (update_task_preserves_timestamps exTask2 ⟨some "completed", none, none⟩ 99).2
     (Or.inl rfl) (by decide),
   (update_task_preserves_timestamps exTask4 ⟨some "in_progress", none, none⟩ 99).1
     rfl (by decide)⟩

/-- C9 counterexample: inbound text that parses to a non-object JSON
value — for instance the valid JSON texts `42` or `"hello"` — is not
ignored: `message.get` raises `AttributeError`, which the handler does
not catch (only `json.JSONDecodeError` is), so the exception escapes the
receive loop and the connection is closed rather than staying open. -/
theorem nonobject_message_crashes :
    handleMessage (some (Json.num 42)) = Outcome.crash ∧
    handleMessage (some (Json.str "hello")) = Outcome.crash :=
  ⟨rfl, rfl⟩

/-- C9 amended: text failing JSON parsing is ignored with no reply and
the connection stays open, and so is any message parsing to a JSON
object that is not a well-formed subscribe (its action is not
`"subscribe"`, or it lacks `session_id`) and not a ping; but a message
parsing to a non-object JSON value raises an uncaught error that
terminates the connection. -/
theorem unrecognized_object_ignored (fields : List (String × Json))
    (h1 : isStrEq (lookupField fields "action") "subscribe" = true →
      lookupField fields "session_id" = none)
    (h2 : isStrEq (lookupField fields "action") "ping" = false) :
    handleMessage (some (Json.obj fields)) = Outcome.ignored ∧
    handleMessage none = Outcome.ignored := by
  refine ⟨?_, rfl⟩
  unfold handleMessage
  by_cases hs : isStrEq (lookupField fields "action") "subscribe" = true
  · have hn := h1 hs
    simp [hs, hn, h2]
  · simp only [Bool.not_eq_true] at hs
    simp [hs, h2]

/-- C9 amended, applied: an object message with an unrecognized action,
and unparseable text, are both ignored. -/
theorem unrecognized_object_ignored_witness :
    handleMessage (some (Json.obj [("action", Json.str "frobnicate")])) = Outcome.ignored ∧
    handleMessage none = Outcome.ignored :=
  unrecognized_object_ignored [("action", Json.str "frobnicate")]
    (fun _ => rfl) (by decide)

end Dashboard
